import Mathlib

/-!
Verification of the ClearTrial query layer.

This file shallowly embeds the two Next.js API routes of the repository that
serve the query path:

* the `/api/studies` search route (`src/unnamed/part_001`): its first,
  string-interpolating variant is embedded textually (`searchWhereClause`,
  the WHERE-clause string it builds) and its parameterized variant is
  embedded semantically (`studiesGET`, acting on a list of `Study` rows with
  the SQL semantics of the literal queries: `ILIKE`-filtering, ordering by
  `last_update_date DESC NULLS LAST`, `LIMIT`/`OFFSET` pagination, and a
  pre-pagination `COUNT(*)`);
* the `/api/stats` facet route (`src/frontend/src/app/api/stats/route.ts`),
  embedded semantically (`statsGET`): the dynamic WHERE clause over the five
  filter dimensions, and the grouped counts for status, phase, condition,
  sponsor class and start year.

The `studies` table is modeled as a `List Study`; only the columns these
routes read are carried. `start_date` is modeled by its `EXTRACT(YEAR ...)`
value, the only use the routes make of it, and `last_update_date` by an
integer timestamp ordinal. The `conditions` jsonb column is modeled by
`Jsonb` with an array constructor and a non-array constructor, enough to
express the routes' `jsonb_typeof(conditions) = 'array'` guard, the `@>`
containment filter and the `conditions::text` cast.

SQL `LIKE`/`ILIKE` is modeled by an executable matcher (`likeMatch`) with
`%`, `_` and backslash-escape semantics; grouping (`GROUP BY` + `COUNT` /
`SUM`) by `groupCounts` / `groupSums`; `ORDER BY` by insertion sort under
the query's sort relation.
-/

/-- The jsonb value stored in the `conditions` column: either a JSON array of
strings (the shape the routes expect) or some non-array jsonb value. -/
inductive Jsonb where
  | arr (xs : List String)
  | nonArray (s : String)
deriving DecidableEq

/-- The `conditions::text` cast: Postgres prints a jsonb array as
`["a", "b"]` (elements double-quoted, comma-space separated). -/
def jsonbText : Jsonb → String
  | .arr xs => "[" ++ String.intercalate ", " (xs.map (fun s => "\"" ++ s ++ "\"")) ++ "]"
  | .nonArray s => s

/-- One row of the `studies` table, restricted to the columns the two query
routes read. `start_date` is carried as its year, `last_update_date` as an
integer ordinal; nullable columns are `Option`. -/
structure Study where
  nct_id : String
  brief_title : Option String
  official_title : Option String
  overall_status : Option String
  study_type : Option String
  phase : Option String
  conditions : Option Jsonb
  lead_sponsor : Option String
  lead_sponsor_class : Option String
  start_date : Option Int
  last_update_date : Option Int
deriving DecidableEq

/-- Whether the database is reachable: the routes' `try`/`catch` turns a
thrown query error into the error payload, so the handlers are modeled as
functions of this state. -/
inductive DbState where
  | up (store : List Study)
  | down
deriving DecidableEq

/-! ### SQL `LIKE` / `ILIKE` pattern matching

`likeMatchF` is a fuel-indexed, structurally recursive matcher for SQL
patterns over character lists: `%` matches any sequence, `_` any single
character, and a backslash escapes the following pattern character. The
wrapper `likeMatch` supplies sufficient fuel (each step shrinks the pattern
or the text, so `|p| + |s| + 1` steps always suffice). -/

/-- The SQL escape character (backslash). -/
def escChar : Char := Char.ofNat 92

def likeMatchF : Nat → List Char → List Char → Bool
  | 0, _, _ => false
  | _ + 1, [], s => s.isEmpty
  | fuel + 1, c :: p, s =>
    if c = '%' then
      likeMatchF fuel p s ||
        (match s with
         | [] => false
         | _ :: t => likeMatchF fuel (c :: p) t)
    else if c = escChar then
      match p with
      | [] => false
      | pc :: p2 =>
        match s with
        | [] => false
        | c1 :: t => pc == c1 && likeMatchF fuel p2 t
    else
      match s with
      | [] => false
      | c1 :: t => (c == '_' || c == c1) && likeMatchF fuel p t

/-- SQL pattern matching of pattern `p` against text `s`. -/
def likeMatch (p s : List Char) : Bool :=
  likeMatchF (p.length + s.length + 1) p s

/-- Case-sensitive SQL `LIKE`. -/
def sqlLike (pat s : String) : Bool := likeMatch pat.data s.data

/-- The lowercasing both sides of `ILIKE` undergo. -/
def lowerData (s : String) : List Char := s.data.map Char.toLower

/-- Case-insensitive SQL `ILIKE` (match after lowercasing both sides). -/
def sqlILike (pat s : String) : Bool := likeMatch (lowerData pat) (lowerData s)

/-- SQL `LOWER`. -/
def lowerStr (s : String) : String := String.mk (lowerData s)

/-! ### Grouped counts (`GROUP BY` semantics) -/

/-- `GROUP BY (key a)` with `COUNT(*)`: one `(label, count)` row per distinct
key of `l`. Row order is left to the query's `ORDER BY`, applied separately. -/
def groupCounts {α β : Type} [DecidableEq β] (key : α → β) (l : List α) : List (β × Nat) :=
  ((l.map key).dedup).map (fun b => (b, (l.map key).count b))

/-- The total weight the rows of `l` with label `b` carry. -/
def fiberSum {β : Type} [DecidableEq β] (l : List (β × Nat)) (b : β) : Nat :=
  ((l.filter (fun q => q.1 == b)).map Prod.snd).sum

/-- `GROUP BY label` with `SUM(value)` over already-weighted rows. -/
def groupSums {β : Type} [DecidableEq β] (l : List (β × Nat)) : List (β × Nat) :=
  ((l.map Prod.fst).dedup).map (fun b => (b, fiberSum l b))

/-! ### Sort relations for the queries' `ORDER BY` clauses -/

/-- The search route's `ORDER BY last_update_date DESC NULLS LAST` as a
boolean relation: `a` may precede `b`. -/
def updAfterB (a b : Study) : Bool :=
  match a.last_update_date, b.last_update_date with
  | some x, some y => y ≤ x
  | some _, none => true
  | none, some _ => false
  | none, none => true

/-- `updAfterB` as the sort relation. -/
def updAfter (a b : Study) : Prop := updAfterB a b = true

instance : DecidableRel updAfter := fun a b => instDecidableEqBool (updAfterB a b) true

instance : IsTotal Study updAfter := by
  constructor
  intro a b
  unfold updAfter updAfterB
  cases ha : a.last_update_date <;> cases hb : b.last_update_date <;>
    simp_all <;> omega

instance : IsTrans Study updAfter := by
  constructor
  intro a b c hab hbc
  unfold updAfter updAfterB at *
  cases ha : a.last_update_date <;> cases hb : b.last_update_date <;>
    cases hc : c.last_update_date <;> simp_all <;> omega

/-- `ORDER BY value DESC` over `(label, count)` rows. -/
def byValueDesc {β : Type} (a b : β × Nat) : Prop := b.2 ≤ a.2

instance {β : Type} : DecidableRel (@byValueDesc β) := fun a b => Nat.decLe b.2 a.2

instance {β : Type} : IsTotal (β × Nat) byValueDesc :=
  ⟨fun a b => Nat.le_total b.2 a.2⟩

instance {β : Type} : IsTrans (β × Nat) byValueDesc :=
  ⟨fun _ _ _ hab hbc => Nat.le_trans hbc hab⟩

/-- `ORDER BY 1` (year ascending) over `(year, count)` rows. -/
def byYearAsc (a b : Int × Nat) : Prop := a.1 ≤ b.1

instance : DecidableRel byYearAsc := fun a b => Int.decLe a.1 b.1

instance : IsTotal (Int × Nat) byYearAsc := ⟨fun a b => Int.le_total a.1 b.1⟩

instance : IsTrans (Int × Nat) byYearAsc := ⟨fun _ _ _ hab hbc => Int.le_trans hab hbc⟩

/-! ### The `/api/studies` search route, semantic embedding

Mirrors the route's query: the dynamic WHERE clause (free text `q` matched
with `ILIKE '%q%'` against title, official title, lead sponsor,
`conditions::text` and `nct_id`; equality filters for status, phase, study
type and sponsor class), `ORDER BY last_update_date DESC NULLS LAST`,
`LIMIT`/`OFFSET` from `page`/`limit`, and a separate pre-pagination
`COUNT(*)`. Absent query parameters arrive as `""`, mirroring
`searchParams.get(...) || ""`. -/

/-- A parsed request to the search route. -/
structure SearchReq where
  q : String := ""
  status : String := ""
  phase : String := ""
  study_type : String := ""
  sponsor_class : String := ""
  page : Int := 1
  limit : Int := 20
deriving DecidableEq

/-- The `%q%` pattern the route builds from the free text. -/
def likePat (q : String) : String := "%" ++ q ++ "%"

/-- `field ILIKE pat` on a nullable column (`NULL ILIKE pat` is not true). -/
def ilikeOpt (pat : String) : Option String → Bool
  | some s => sqlILike pat s
  | none => false

/-- The free-text disjunction of the search route: `ILIKE '%q%'` over
brief title, official title, lead sponsor, `conditions::text`, `nct_id`. -/
def qMatch (q : String) (r : Study) : Bool :=
  ilikeOpt (likePat q) r.brief_title ||
  ilikeOpt (likePat q) r.official_title ||
  ilikeOpt (likePat q) r.lead_sponsor ||
  ilikeOpt (likePat q) (r.conditions.map jsonbText) ||
  sqlILike (likePat q) r.nct_id

/-- The four structured equality filters of the search route; an empty
string means the parameter was absent and no condition is added. -/
def structMatch (status phase study_type sponsor_class : String) (r : Study) : Bool :=
  (status == "" || r.overall_status == some status) &&
  (phase == "" || r.phase == some phase) &&
  (study_type == "" || r.study_type == some study_type) &&
  (sponsor_class == "" || r.lead_sponsor_class == some sponsor_class)

/-- The full WHERE predicate of the search route. -/
def searchPred (q status phase study_type sponsor_class : String) (r : Study) : Bool :=
  (q == "" || qMatch q r) && structMatch status phase study_type sponsor_class r

/-- The candidate set: rows satisfying the WHERE clause, in store order. -/
def searchCandidates (req : SearchReq) (store : List Study) : List Study :=
  store.filter (searchPred req.q req.status req.phase req.study_type req.sponsor_class)

/-- `const limit = Math.min(parseInt(limit), 100)`. -/
def limitEff (req : SearchReq) : Int := min req.limit 100

/-- `const offset = (page - 1) * limit`. -/
def offsetOf (req : SearchReq) : Int := (req.page - 1) * limitEff req

/-- The ordered candidate sequence (`ORDER BY last_update_date DESC NULLS LAST`). -/
def searchSorted (req : SearchReq) (store : List Study) : List Study :=
  List.insertionSort updAfter (searchCandidates req store)

/-- The returned page: `LIMIT limit OFFSET offset` over the ordered sequence. -/
def searchItems (req : SearchReq) (store : List Study) : List Study :=
  ((searchSorted req store).drop (offsetOf req).toNat).take (limitEff req).toNat

/-- The success payload of the search route. -/
structure SearchOk where
  studies : List Study
  total : Nat
  page : Int
  limit : Int
deriving DecidableEq

/-- The catch-branch payload: a response carrying an `error` field. -/
structure ApiError where
  error : String
deriving DecidableEq

/-- A search response: success or the catch branch. -/
inductive SearchResult where
  | ok (payload : SearchOk)
  | err (payload : ApiError)
deriving DecidableEq

/-- The HTTP status the route attaches (500 on the catch branch). -/
def SearchResult.status : SearchResult → Nat
  | .ok _ => 200
  | .err _ => 500

/-- The search route handler. A request whose `LIMIT` or `OFFSET` is
negative makes the database query throw (Postgres rejects negative
`LIMIT`/`OFFSET`), which the route's `catch` turns into the error payload,
as it does an unreachable database. -/
def studiesGET (db : DbState) (req : SearchReq) : SearchResult :=
  match db with
  | .down => .err ⟨"Database error"⟩
  | .up store =>
    if limitEff req < 0 ∨ offsetOf req < 0 then .err ⟨"Database error"⟩
    else .ok ⟨searchItems req store, (searchCandidates req store).length, req.page, req.limit⟩

/-! ### The `/api/studies` search route, textual embedding

The repository also contains a variant of the search route that builds the
WHERE clause by interpolating the raw parameter values into the SQL text
(`conditions.push(`overall_status = '${status}'`)` and the `ILIKE
'%q%'` block). `searchWhereClause` reproduces that construction character
for character; `firstLiteral` is a lexer for SQL single-quoted string
literals (with `''` as the escaped quote), used to read back which literal
the SQL engine would actually see. -/

/-- The free-text block the interpolating route pushes, template literal
whitespace included (`searchTerm` is already `%q%`). -/
def qConditionText (searchTerm : String) : String :=
  "(\n        brief_title ILIKE '" ++ searchTerm ++ "' OR \n        official_title ILIKE '" ++
    searchTerm ++ "' OR \n        lead_sponsor ILIKE '" ++ searchTerm ++
    "' OR \n        conditions::text ILIKE '" ++ searchTerm ++ "' OR\n        nct_id ILIKE '" ++
    searchTerm ++ "'\n      )"

/-- The interpolating route's `conditions` array, in push order. -/
def searchConditions (q status phase study_type sponsor_class : String) : List String :=
  (if q ≠ "" then [qConditionText (likePat q)] else []) ++
  (if status ≠ "" then ["overall_status = '" ++ status ++ "'"] else []) ++
  (if phase ≠ "" then ["phase = '" ++ phase ++ "'"] else []) ++
  (if study_type ≠ "" then ["study_type = '" ++ study_type ++ "'"] else []) ++
  (if sponsor_class ≠ "" then ["lead_sponsor_class = '" ++ sponsor_class ++ "'"] else [])

/-- The WHERE clause the interpolating route executes. -/
def searchWhereClause (q status phase study_type sponsor_class : String) : String :=
  let conds := searchConditions q status phase study_type sponsor_class
  if conds = [] then "" else "WHERE " ++ String.intercalate " AND " conds

/-- The SQL quote character. -/
def sqChar : Char := Char.ofNat 39

/-- Read a single-quoted SQL literal's content (the opening quote already
consumed): `''` stands for one quote, a lone quote ends the literal;
`none` on an unterminated literal. -/
def readLit : List Char → Option (List Char × List Char)
  | [] => none
  | c :: cs =>
    if c = sqChar then
      match cs with
      | c2 :: cs2 =>
        if c2 = sqChar then (readLit cs2).map (fun r => (sqChar :: r.1, r.2))
        else some ([], cs)
      | [] => some ([], [])
    else (readLit cs).map (fun r => (c :: r.1, r.2))

/-- Skip to just past the first quote character. -/
def afterFirstQuote : List Char → Option (List Char)
  | [] => none
  | c :: cs => if c = sqChar then some cs else afterFirstQuote cs

/-- The first single-quoted literal a SQL lexer reads in `s`. -/
def firstLiteral (s : String) : Option String :=
  match afterFirstQuote s.data with
  | none => none
  | some rest => (readLit rest).map (fun r => String.mk r.1)

/-! ### The `/api/stats` facet route

Semantic embedding of the filtered stats route: the five recognized filter
dimensions (phase, status, year, condition, sponsor), each mapped from its
UI value to a database code by a closed map (an unmapped value adds no
condition), the `@>` jsonb containment filter for conditions, and the six
aggregations the route runs against the resulting WHERE clause. -/

/-- A parsed request to the stats route (absent parameters are `none`; the
`year` parameter is carried already parsed to an integer). -/
structure StatsFilters where
  phase : Option String := none
  status : Option String := none
  year : Option Int := none
  condition : Option String := none
  sponsor : Option String := none
deriving DecidableEq

/-- The route's `statusMap`: UI status label to database code. -/
def statusMapUI : String → Option String
  | "Recruiting" => some "RECRUITING"
  | "Completed" => some "COMPLETED"
  | "Active" => some "ACTIVE_NOT_RECRUITING"
  | "Not Yet Recruiting" => some "NOT_YET_RECRUITING"
  | "Terminated" => some "TERMINATED"
  | "Withdrawn" => some "WITHDRAWN"
  | "Suspended" => some "SUSPENDED"
  | "By Invitation" => some "ENROLLING_BY_INVITATION"
  | "Unknown" => some "UNKNOWN"
  | _ => none

/-- The route's `phaseMap`: UI phase label to database code (the combined
and not-applicable labels are handled separately). -/
def phaseMapUI : String → Option String
  | "Early Phase 1" => some "EARLY_PHASE1"
  | "Phase 1" => some "PHASE1"
  | "Phase 2" => some "PHASE2"
  | "Phase 3" => some "PHASE3"
  | "Phase 4" => some "PHASE4"
  | _ => none

/-- The route's `sponsorMap`: UI sponsor label to database code. -/
def sponsorMapUI : String → Option String
  | "Industry" => some "INDUSTRY"
  | "NIH" => some "NIH"
  | "Federal" => some "FED"
  | "Academic/Other" => some "OTHER"
  | "Network" => some "NETWORK"
  | _ => none

/-- The phase filter condition: combined phases via `LIKE`, `Not
Applicable` as `phase IS NULL OR phase = 'NA'`, otherwise the closed map
(an unmapped label pushes no condition). -/
def phaseFilterB (fp : Option String) (r : Study) : Bool :=
  match fp with
  | none => true
  | some f =>
    if f = "Phase 1/2" then
      match r.phase with
      | some p => sqlLike "%PHASE1%" p && sqlLike "%PHASE2%" p
      | none => false
    else if f = "Phase 2/3" then
      match r.phase with
      | some p => sqlLike "%PHASE2%" p && sqlLike "%PHASE3%" p
      | none => false
    else if f = "Not Applicable" then
      r.phase == none || r.phase == some "NA"
    else
      match phaseMapUI f with
      | some db => r.phase == some db
      | none => true

/-- The status filter condition (unmapped label: no condition). -/
def statusFilterB (fs : Option String) (r : Study) : Bool :=
  match fs with
  | none => true
  | some f =>
    match statusMapUI f with
    | some db => r.overall_status == some db
    | none => true

/-- `EXTRACT(YEAR FROM start_date) = y` (`NULL` compares not-true). -/
def yearFilterB (fy : Option Int) (r : Study) : Bool :=
  match fy with
  | none => true
  | some y =>
    match r.start_date with
    | some d => d == y
    | none => false

/-- `conditions @> '"c"'::jsonb`: jsonb containment of the string value `c`
(the route's quote-doubling of `c` is undone by the SQL lexer, so the
compared value is `c` itself). An array contains a string element-wise; a
non-array scalar contains only itself; `NULL` contains nothing. -/
def condFilterB (fc : Option String) (r : Study) : Bool :=
  match fc with
  | none => true
  | some c =>
    match r.conditions with
    | some (.arr xs) => xs.contains c
    | some (.nonArray s) => s == c
    | none => false

/-- The sponsor filter condition (unmapped label: no condition). -/
def sponsorFilterB (fs : Option String) (r : Study) : Bool :=
  match fs with
  | none => true
  | some f =>
    match sponsorMapUI f with
    | some db => r.lead_sponsor_class == some db
    | none => true

/-- The stats route's full WHERE clause over one row. -/
def statsPred (f : StatsFilters) (r : Study) : Bool :=
  phaseFilterB f.phase r && statusFilterB f.status r && yearFilterB f.year r &&
    condFilterB f.condition r && sponsorFilterB f.sponsor r

/-- The rows satisfying the stats WHERE clause. -/
def statsMatching (store : List Study) (f : StatsFilters) : List Study :=
  store.filter (statsPred f)

/-- The status-breakdown `CASE` mapping database codes to display names
(`ELSE COALESCE(overall_status, 'Unknown')`). -/
def statusDisplay : String → String
  | "RECRUITING" => "Recruiting"
  | "COMPLETED" => "Completed"
  | "ACTIVE_NOT_RECRUITING" => "Active"
  | "NOT_YET_RECRUITING" => "Not Yet Recruiting"
  | "TERMINATED" => "Terminated"
  | "WITHDRAWN" => "Withdrawn"
  | "SUSPENDED" => "Suspended"
  | "ENROLLING_BY_INVITATION" => "By Invitation"
  | "UNKNOWN" => "Unknown"
  | s => s

/-- The status-breakdown display name of a grouped (possibly null) status. -/
def statusDisplayOpt : Option String → String
  | some s => statusDisplay s
  | none => "Unknown"

/-- The status breakdown: rows with non-null status, grouped by raw status,
displayed, `ORDER BY value DESC LIMIT 8`. -/
def statsByStatus (store : List Study) (f : StatsFilters) : List (String × Nat) :=
  (List.insertionSort byValueDesc
    ((groupCounts (fun r => r.overall_status)
        ((statsMatching store f).filter (fun r => r.overall_status.isSome))).map
      (fun p => (statusDisplayOpt p.1, p.2)))).take 8

/-- The phase-breakdown `CASE`, in source order: exact codes first, then the
combined-phase `LIKE` tests, then `NULL`/`'NA'`, else `Other`. -/
def phaseBucket : Option String → String
  | none => "Not Applicable"
  | some p =>
    if p = "PHASE1" then "Phase 1"
    else if p = "PHASE2" then "Phase 2"
    else if p = "PHASE3" then "Phase 3"
    else if p = "PHASE4" then "Phase 4"
    else if p = "EARLY_PHASE1" then "Early Phase 1"
    else if sqlLike "%PHASE1%" p && sqlLike "%PHASE2%" p then "Phase 1/2"
    else if sqlLike "%PHASE2%" p && sqlLike "%PHASE3%" p then "Phase 2/3"
    else if p = "NA" then "Not Applicable"
    else "Other"

/-- The fixed display order of the phase breakdown (`ORDER BY CASE name ...`). -/
def phaseRank (name : String) : Nat :=
  if name = "Early Phase 1" then 1
  else if name = "Phase 1" then 2
  else if name = "Phase 1/2" then 3
  else if name = "Phase 2" then 4
  else if name = "Phase 2/3" then 5
  else if name = "Phase 3" then 6
  else if name = "Phase 4" then 7
  else if name = "Not Applicable" then 8
  else 9

/-- `ORDER BY CASE name ...` over the phase breakdown rows. -/
def byPhaseRank (a b : String × Nat) : Prop := phaseRank a.1 ≤ phaseRank b.1

instance : DecidableRel byPhaseRank := fun a b => Nat.decLe (phaseRank a.1) (phaseRank b.1)

instance : IsTotal (String × Nat) byPhaseRank :=
  ⟨fun a b => Nat.le_total (phaseRank a.1) (phaseRank b.1)⟩

instance : IsTrans (String × Nat) byPhaseRank :=
  ⟨fun _ _ _ hab hbc => Nat.le_trans hab hbc⟩

/-- The phase breakdown: the inner query groups matching rows by raw phase
and names each group through `phaseBucket`; the outer query sums the counts
per name and orders by the fixed rank. No `LIMIT`. -/
def statsByPhase (store : List Study) (f : StatsFilters) : List (String × Nat) :=
  List.insertionSort byPhaseRank
    (groupSums
      ((groupCounts (fun r => r.phase) (statsMatching store f)).map
        (fun p => (phaseBucket p.1, p.2))))

/-- The generic condition labels the top-conditions query excludes
(compared against `LOWER(condition)`). -/
def stopList : List String :=
  ["healthy", "healthy volunteers", "healthy volunteer", "healthy adults",
   "healthy participants", "normal", "disease", "diseases"]

/-- The lateral rows of the top-conditions query: one row per element of
each matching study's `conditions` array (non-array and null `conditions`
yield no rows, per the `jsonb_typeof(conditions) = 'array'` guard), with
the stop-list and `LENGTH(condition) > 3` predicates of the WHERE clause. -/
def conditionRows (store : List Study) (f : StatsFilters) : List String :=
  (statsMatching store f).flatMap (fun r =>
    match r.conditions with
    | some (.arr xs) => xs.filter (fun c => !(stopList.contains (lowerStr c)) && c.length > 3)
    | _ => [])

/-- The top-conditions facet: grouped condition labels,
`ORDER BY value DESC LIMIT 10`. -/
def statsTopConditions (store : List Study) (f : StatsFilters) : List (String × Nat) :=
  (List.insertionSort byValueDesc (groupCounts id (conditionRows store f))).take 10

/-- The sponsor-breakdown `CASE` (`ELSE 'Other'`, also for `NULL`). -/
def sponsorDisplay : Option String → String
  | some "INDUSTRY" => "Industry"
  | some "NIH" => "NIH"
  | some "FED" => "Federal"
  | some "OTHER" => "Academic/Other"
  | some "NETWORK" => "Network"
  | _ => "Other"

/-- The sponsor breakdown: grouped by raw sponsor class, displayed,
`ORDER BY value DESC LIMIT 5`. -/
def statsBySponsor (store : List Study) (f : StatsFilters) : List (String × Nat) :=
  (List.insertionSort byValueDesc
    ((groupCounts (fun r => r.lead_sponsor_class) (statsMatching store f)).map
      (fun p => (sponsorDisplay p.1, p.2)))).take 5

/-- The years the by-year query groups: the start year of each matching row
with a non-null start date inside `[2010, 2026]`. -/
def yearRows (store : List Study) (f : StatsFilters) : List Int :=
  (statsMatching store f).filterMap (fun r =>
    match r.start_date with
    | some d => if 2010 ≤ d ∧ d ≤ 2026 then some d else none
    | none => none)

/-- The by-year facet: grouped start years, ordered ascending. -/
def statsByYear (store : List Study) (f : StatsFilters) : List (Int × Nat) :=
  List.insertionSort byYearAsc (groupCounts id (yearRows store f))

/-- `conditionsResult[0]?.name || "N/A"` (JavaScript `||`: an empty-string
name would also fall back). -/
def statsTopCondition (store : List Study) (f : StatsFilters) : String :=
  match (statsTopConditions store f).head? with
  | some e => if e.1 = "" then "N/A" else e.1
  | none => "N/A"

/-- The success payload of the stats route. -/
structure StatsOk where
  total : Nat
  recruiting : Nat
  topCondition : String
  byStatus : List (String × Nat)
  byPhase : List (String × Nat)
  topConditions : List (String × Nat)
  bySponsor : List (String × Nat)
  byYear : List (Int × Nat)
deriving DecidableEq

/-- The stats success payload computed from the store and the filter set. -/
def statsOk (store : List Study) (f : StatsFilters) : StatsOk :=
  ⟨(statsMatching store f).length,
   ((statsMatching store f).filter (fun r => r.overall_status == some "RECRUITING")).length,
   statsTopCondition store f,
   statsByStatus store f,
   statsByPhase store f,
   statsTopConditions store f,
   statsBySponsor store f,
   statsByYear store f⟩

/-- A stats response: success or the catch branch. -/
inductive StatsResult where
  | ok (payload : StatsOk)
  | err (payload : ApiError)
deriving DecidableEq

/-- The HTTP status the stats route attaches (500 on the catch branch). -/
def StatsResult.status : StatsResult → Nat
  | .ok _ => 200
  | .err _ => 500

/-- The stats route handler. -/
def statsGET (db : DbState) (f : StatsFilters) : StatsResult :=
  match db with
  | .down => .err ⟨"Failed to fetch stats"⟩
  | .up store => .ok (statsOk store f)

/-- Per the spec's self-exclusive facet semantics: the status facet counts
computed against the predicate with the status dimension's own filter
removed (all other active filters still applied). -/
def specSelfExclusiveByStatus (store : List Study) (f : StatsFilters) : List (String × Nat) :=
  statsByStatus store { f with status := none }

/-! ### Substring occurrence (the spec's reading of the keyword match) -/

/-- `q` occurs in `s` as a case-insensitive substring. -/
def occursCI (q s : String) : Prop := List.IsInfix (lowerData q) (lowerData s)

instance (q s : String) : Decidable (occursCI q s) :=
  inferInstanceAs (Decidable (List.IsInfix (lowerData q) (lowerData s)))

/-- Case-insensitive substring occurrence in a nullable column. -/
def occursCIOpt (q : String) : Option String → Prop
  | some s => occursCI q s
  | none => False

instance (q : String) : (o : Option String) → Decidable (occursCIOpt q o)
  | some s => inferInstanceAs (Decidable (occursCI q s))
  | none => isFalse (fun h => h)

/-- A character list free of SQL pattern metacharacters (`%`, `_`, the
escape character): on such free text `ILIKE '%q%'` is exactly
case-insensitive substring matching. -/
def plainText (l : List Char) : Prop := ∀ c ∈ l, c ≠ '%' ∧ c ≠ escChar ∧ c ≠ '_'

instance (l : List Char) : Decidable (plainText l) :=
  inferInstanceAs (Decidable (∀ c ∈ l, c ≠ '%' ∧ c ≠ escChar ∧ c ≠ '_'))

/-! ### Concrete inputs used by counterexamples and witnesses -/

/-- A row with every nullable column null. -/
def blankStudy : Study := ⟨"", none, none, none, none, none, none, none, none, none, none⟩

def recruitingStudy : Study :=
  { blankStudy with nct_id := "NCT00000001", overall_status := some "RECRUITING",
                    last_update_date := some 10 }

def completedStudy : Study :=
  { blankStudy with nct_id := "NCT00000002", overall_status := some "COMPLETED",
                    last_update_date := some 20 }

/-- Two rows with distinct statuses. -/
def facetCexStore : List Study := [recruitingStudy, completedStudy]

/-- An active status filter. -/
def recruitingFilter : StatsFilters := { status := some "Recruiting" }

/-- A row whose `overall_status` is null. -/
def nullStatusStudy : Study := { blankStudy with nct_id := "NCT00000003" }

/-- The empty filter set. -/
def noFilters : StatsFilters := {}

def tieStudyA : Study :=
  { blankStudy with nct_id := "NCT00000004", last_update_date := some 5 }

def tieStudyB : Study :=
  { blankStudy with nct_id := "NCT00000005", last_update_date := some 5 }

/-- A search request with every parameter left to its default. -/
def defaultReq : SearchReq := {}

/-- A search request with `limit=0` (and default `page=1`). -/
def zeroLimitReq : SearchReq := { limit := 0 }

/-- A search request with `page=0` and a positive limit. -/
def zeroPageReq : SearchReq := { page := 0 }

/-- A free-text request whose `q` contains the `_` wildcard. -/
def wildcardReq : SearchReq := { q := "a_c" }

def wildcardStudy : Study :=
  { blankStudy with nct_id := "NCT00000006", brief_title := some "abc" }

/-- A plain free-text request. -/
def cancerReq : SearchReq := { q := "cancer" }

def cancerStudy : Study :=
  { blankStudy with nct_id := "NCT00000007", brief_title := some "Breast Cancer Study",
                    last_update_date := some 3 }

/-- A dated row with a condition list, for the facet witnesses. -/
def datedStudy : Study :=
  { blankStudy with nct_id := "NCT00000008", overall_status := some "RECRUITING",
                    phase := some "PHASE2", conditions := some (.arr ["Melanoma"]),
                    start_date := some 2015, last_update_date := some 7 }

/-! ## Lemmas about the grouping primitives -/

theorem groupCounts_sum {α β : Type} [DecidableEq β] (key : α → β) (l : List α) :
    ((groupCounts key l).map Prod.snd).sum = l.length := by
  unfold groupCounts
  rw [List.map_map]
  have hc : (Prod.snd ∘ fun b => (b, (l.map key).count b)) = fun b => (l.map key).count b := rfl
  rw [hc]
  have h := List.sum_map_count_dedup_eq_length (l.map key)
  simpa using h

theorem groupCounts_mem {α β : Type} [DecidableEq β] {key : α → β} {l : List α} {b : β} {n : Nat}
    (h : (b, n) ∈ groupCounts key l) :
    b ∈ l.map key ∧ n = (l.map key).count b := by
  unfold groupCounts at h
  rcases List.mem_map.mp h with ⟨x, hx, hxe⟩
  cases hxe
  exact ⟨List.mem_dedup.mp hx, rfl⟩

theorem count_map_key {α β : Type} [DecidableEq β] (key : α → β) (l : List α) (b : β) :
    (l.map key).count b = (l.filter (fun a => key a == b)).length := by
  rw [List.count_eq_countP, List.countP_map, List.countP_eq_length_filter]
  rfl

theorem dedup_all_eq {β : Type} [DecidableEq β] {L : List β} {b : β}
    (hne : L ≠ []) (hall : ∀ x ∈ L, x = b) : L.dedup = [b] := by
  induction L with
  | nil => exact absurd rfl hne
  | cons c t ih =>
    have hc : c = b := hall c (by simp)
    subst hc
    cases t with
    | nil => simp
    | cons d t2 =>
      have hall2 : ∀ x ∈ d :: t2, x = c := fun x hx => hall x (List.mem_cons_of_mem _ hx)
      have hd := ih (by simp) hall2
      have hmem : c ∈ d :: t2 := by
        have hdc : d = c := hall2 d (by simp)
        simp [hdc]
      rw [List.dedup_cons_of_mem hmem, hd]

theorem groupCounts_const {α β : Type} [DecidableEq β] {key : α → β} {l : List α} {b : β}
    (hne : l ≠ []) (hall : ∀ a ∈ l, key a = b) :
    groupCounts key l = [(b, l.length)] := by
  unfold groupCounts
  have hL : ∀ x ∈ l.map key, x = b := by
    intro x hx
    rcases List.mem_map.mp hx with ⟨a, ha, rfl⟩
    exact hall a ha
  have hLne : l.map key ≠ [] := by
    intro hmap
    exact hne (List.map_eq_nil_iff.mp hmap)
  rw [dedup_all_eq hLne hL]
  have hcnt : (l.map key).count b = (l.map key).length := by
    rw [List.count_eq_length]
    intro x hx
    exact (hL x hx).symm
  simp [hcnt]

theorem sum_map_add {β : Type} (f g : β → Nat) (k : List β) :
    (k.map (fun b => f b + g b)).sum = (k.map f).sum + (k.map g).sum := by
  induction k with
  | nil => rfl
  | cons c t ih =>
    simp only [List.map_cons, List.sum_cons, ih]
    omega

theorem sum_map_single {β : Type} [DecidableEq β] {k : List β} {c : β} (m : Nat)
    (hnd : k.Nodup) (hc : c ∈ k) :
    (k.map (fun b => if c = b then m else 0)).sum = m := by
  induction k with
  | nil => cases hc
  | cons d t ih =>
    rcases List.nodup_cons.mp hnd with ⟨hdt, hndt⟩
    rcases List.mem_cons.mp hc with h | h
    · subst h
      have hz : ∀ b ∈ t, (if c = b then m else 0) = 0 := by
        intro b hb
        have hcb : c ≠ b := by
          rintro rfl
          exact hdt hb
        simp [hcb]
      simp only [List.map_cons, List.sum_cons, if_pos rfl]
      rw [List.map_congr_left hz]
      simp
    · have hcd : c ≠ d := by
        rintro rfl
        exact hdt h
      simp only [List.map_cons, List.sum_cons, if_neg hcd]
      rw [ih hndt h]
      omega

theorem fiberSum_cons {β : Type} [DecidableEq β] (c : β) (m : Nat) (t : List (β × Nat)) (b : β) :
    fiberSum ((c, m) :: t) b = (if c = b then m else 0) + fiberSum t b := by
  unfold fiberSum
  rw [List.filter_cons]
  by_cases h : c = b
  · simp [h]
  · simp [h]

theorem fiberSum_eq_zero {β : Type} [DecidableEq β] {t : List (β × Nat)} {b : β}
    (h : b ∉ t.map Prod.fst) : fiberSum t b = 0 := by
  unfold fiberSum
  have hf : t.filter (fun q => q.1 == b) = [] := by
    rw [List.filter_eq_nil_iff]
    intro q hq
    simp only [beq_iff_eq]
    rintro rfl
    exact h (List.mem_map_of_mem Prod.fst hq)
  rw [hf]
  rfl

theorem groupSums_sum_aux {β : Type} [DecidableEq β] (l : List (β × Nat)) :
    (((l.map Prod.fst).dedup).map (fun b => fiberSum l b)).sum = (l.map Prod.snd).sum := by
  induction l with
  | nil => rfl
  | cons p t ih =>
    obtain ⟨c, m⟩ := p
    simp only [List.map_cons, List.sum_cons]
    by_cases hc : c ∈ t.map Prod.fst
    · rw [List.dedup_cons_of_mem hc]
      have hpt : ∀ b ∈ (t.map Prod.fst).dedup,
          fiberSum ((c, m) :: t) b = (if c = b then m else 0) + fiberSum t b :=
        fun b _ => fiberSum_cons c m t b
      rw [List.map_congr_left hpt, sum_map_add]
      rw [sum_map_single m (List.nodup_dedup _) (List.mem_dedup.mpr hc), ih]
    · rw [List.dedup_cons_of_not_mem hc]
      simp only [List.map_cons, List.sum_cons]
      have hhead : fiberSum ((c, m) :: t) c = m := by
        rw [fiberSum_cons, if_pos rfl, fiberSum_eq_zero hc]
        omega
      have hpt : ∀ b ∈ (t.map Prod.fst).dedup,
          fiberSum ((c, m) :: t) b = fiberSum t b := by
        intro b hb
        have hbc : c ≠ b := by
          rintro rfl
          exact hc (List.mem_dedup.mp hb)
        rw [fiberSum_cons, if_neg hbc]
        omega
      rw [hhead, List.map_congr_left hpt, ih]

theorem groupSums_sum {β : Type} [DecidableEq β] (l : List (β × Nat)) :
    ((groupSums l).map Prod.snd).sum = (l.map Prod.snd).sum := by
  unfold groupSums
  rw [List.map_map]
  have hc : (Prod.snd ∘ fun b => (b, fiberSum l b)) = fun b => fiberSum l b := rfl
  rw [hc]
  exact groupSums_sum_aux l

theorem count_filterMap_eq {α β : Type} [DecidableEq β] (g : α → Option β) (l : List α) (b : β) :
    (l.filterMap g).count b = (l.filter (fun a => g a == some b)).length := by
  induction l with
  | nil => rfl
  | cons a t ih =>
    rw [List.filterMap_cons, List.filter_cons]
    cases hg : g a with
    | none => simpa [hg] using ih
    | some v =>
      by_cases hv : v = b
      · subst hv
        simp [hg, List.count_cons, ih]
      · simp [hg, hv, List.count_cons, ih]

/-! ## Lemmas about the SQL pattern matcher -/

theorem likeMatchF_fuel_eq :
    ∀ (f1 f2 : Nat) (p s : List Char), p.length + s.length < f1 → p.length + s.length < f2 →
      likeMatchF f1 p s = likeMatchF f2 p s := by
  intro f1
  induction f1 with
  | zero =>
    intro f2 p s h1 _
    omega
  | succ f1 ih =>
    intro f2 p s h1 h2
    cases f2 with
    | zero => omega
    | succ f2 =>
      cases p with
      | nil => rfl
      | cons c p =>
        simp only [List.length_cons] at h1 h2
        simp only [likeMatchF]
        by_cases hc : c = '%'
        · rw [if_pos hc, if_pos hc]
          rw [ih f2 p s (by omega) (by omega)]
          congr 1
          cases s with
          | nil => rfl
          | cons c1 t =>
            simp only [List.length_cons] at h1 h2
            exact ih f2 (c :: p) t (by simp; omega) (by simp; omega)
        · rw [if_neg hc, if_neg hc]
          by_cases he : c = escChar
          · rw [if_pos he, if_pos he]
            cases p with
            | nil => cases s <;> rfl
            | cons pc p2 =>
              cases s with
              | nil => rfl
              | cons c1 t =>
                simp only [List.length_cons] at h1 h2
                simp only []
                rw [ih f2 p2 t (by omega) (by omega)]
          · rw [if_neg he, if_neg he]
            cases s with
            | nil => rfl
            | cons c1 t =>
              simp only [List.length_cons] at h1 h2
              simp only []
              rw [ih f2 p t (by omega) (by omega)]

theorem likeMatchF_eq_likeMatch (f : Nat) (p s : List Char) (h : p.length + s.length < f) :
    likeMatchF f p s = likeMatch p s :=
  likeMatchF_fuel_eq f (p.length + s.length + 1) p s h (by omega)

theorem likeMatch_nil (s : List Char) : likeMatch [] s = s.isEmpty := rfl

theorem likeMatch_pct (p s : List Char) :
    likeMatch ('%' :: p) s =
      (likeMatch p s ||
        match s with
        | [] => false
        | _ :: t => likeMatch ('%' :: p) t) := by
  rw [likeMatch]
  simp only [List.length_cons]
  have hstep : likeMatchF (p.length + 1 + s.length + 1) ('%' :: p) s =
      (likeMatchF (p.length + 1 + s.length) p s ||
        match s with
        | [] => false
        | _ :: t => likeMatchF (p.length + 1 + s.length) ('%' :: p) t) := rfl
  rw [hstep, likeMatchF_eq_likeMatch _ _ _ (by omega)]
  cases s with
  | nil => rfl
  | cons c1 t =>
    simp only []
    rw [likeMatchF_eq_likeMatch _ _ _ (by simp only [List.length_cons]; omega)]

theorem likeMatch_esc (pc : Char) (p : List Char) (c1 : Char) (t : List Char) :
    likeMatch (escChar :: pc :: p) (c1 :: t) = (pc == c1 && likeMatch p t) := by
  rw [likeMatch]
  have hstep : likeMatchF ((escChar :: pc :: p).length + (c1 :: t).length + 1)
      (escChar :: pc :: p) (c1 :: t) =
      (pc == c1 && likeMatchF ((escChar :: pc :: p).length + (c1 :: t).length) p t) := rfl
  rw [hstep, likeMatchF_eq_likeMatch _ _ _ (by simp; omega)]

theorem likeMatch_lit_cons {c : Char} (hc1 : c ≠ '%') (hc2 : c ≠ escChar)
    (p : List Char) (c1 : Char) (t : List Char) :
    likeMatch (c :: p) (c1 :: t) = ((c == '_' || c == c1) && likeMatch p t) := by
  rw [likeMatch]
  have hstep : likeMatchF ((c :: p).length + (c1 :: t).length + 1) (c :: p) (c1 :: t) =
      ((c == '_' || c == c1) && likeMatchF ((c :: p).length + (c1 :: t).length) p t) := by
    simp only [likeMatchF, if_neg hc1, if_neg hc2]
  rw [hstep, likeMatchF_eq_likeMatch _ _ _ (by simp; omega)]

theorem likeMatch_nonpct_nil {c : Char} (hc1 : c ≠ '%') (p : List Char) :
    likeMatch (c :: p) [] = false := by
  rw [likeMatch]
  simp only [likeMatchF, if_neg hc1]
  by_cases he : c = escChar
  · rw [if_pos he]
    cases p <;> rfl
  · rw [if_neg he]

theorem likeMatch_pct_all (s : List Char) : likeMatch ['%'] s = true := by
  induction s with
  | nil => rfl
  | cons c t ih =>
    rw [likeMatch_pct]
    simp only [likeMatch_nil, ih, Bool.or_true]

theorem likeMatch_pct_iff (p : List Char) (s : List Char) :
    likeMatch ('%' :: p) s = true ↔ ∃ a b, s = a ++ b ∧ likeMatch p b = true := by
  induction s with
  | nil =>
    rw [likeMatch_pct]
    simp only [Bool.or_false]
    constructor
    · intro h
      exact ⟨[], [], rfl, h⟩
    · rintro ⟨a, b, hab, hb⟩
      rcases List.append_eq_nil.mp hab.symm with ⟨rfl, rfl⟩
      exact hb
  | cons c t ih =>
    rw [likeMatch_pct]
    simp only [Bool.or_eq_true]
    constructor
    · rintro (h | h)
      · exact ⟨[], c :: t, rfl, h⟩
      · rcases ih.mp h with ⟨a, b, hab, hb⟩
        exact ⟨c :: a, b, by rw [hab]; rfl, hb⟩
    · rintro ⟨a, b, hab, hb⟩
      cases a with
      | nil =>
        left
        rw [List.nil_append] at hab
        rw [hab]
        exact hb
      | cons a0 a1 =>
        right
        apply ih.mpr
        injection hab with h1 h2
        exact ⟨a1, b, h2, hb⟩

theorem likeMatch_lit_append :
    ∀ (q : List Char), plainText q → ∀ (p s : List Char),
      (likeMatch (q ++ p) s = true ↔ ∃ t, s = q ++ t ∧ likeMatch p t = true) := by
  intro q
  induction q with
  | nil =>
    intro _ p s
    simp
  | cons c q ih =>
    intro hq p s
    obtain ⟨hc1, hc2, hc3⟩ := hq c (by simp)
    have hq2 : plainText q := fun d hd => hq d (by simp [hd])
    cases s with
    | nil =>
      rw [List.cons_append, likeMatch_nonpct_nil hc1]
      constructor
      · intro h
        cases h
      · rintro ⟨t, ht, _⟩
        cases ht
    | cons c1 t =>
      rw [List.cons_append, likeMatch_lit_cons hc1 hc2]
      constructor
      · intro h
        rw [Bool.and_eq_true] at h
        obtain ⟨h1, h2⟩ := h
        have hcc : c = c1 := by
          rw [Bool.or_eq_true] at h1
          rcases h1 with h3 | h3
          · exact absurd (beq_iff_eq.mp h3) hc3
          · exact beq_iff_eq.mp h3
        subst hcc
        rcases (ih hq2 p t).mp h2 with ⟨u, rfl, hu⟩
        refine ⟨u, ?_, hu⟩
        rw [List.cons_append]
      · rintro ⟨u, hs, hu⟩
        injection hs with h1 h2
        subst h1
        have h2' : likeMatch (q ++ p) t = true := by
          rw [h2]
          exact (ih hq2 p (q ++ u)).mpr ⟨u, rfl, hu⟩
        simp [h2']

theorem lowerData_likePat (q : String) :
    lowerData (likePat q) = '%' :: (lowerData q ++ ['%']) := by
  have h1 : Char.toLower '%' = '%' := by decide
  have h2 : "%".data = ['%'] := rfl
  simp [likePat, lowerData, String.data_append, h1, h2]

theorem sqlILike_infix_iff (q s : String) (hq : plainText (lowerData q)) :
    (sqlILike (likePat q) s = true) ↔ List.IsInfix (lowerData q) (lowerData s) := by
  rw [sqlILike, lowerData_likePat, likeMatch_pct_iff]
  constructor
  · rintro ⟨a, b, hs, hb⟩
    rcases (likeMatch_lit_append (lowerData q) hq ['%'] b).mp hb with ⟨t, rfl, _⟩
    refine ⟨a, t, ?_⟩
    rw [hs]
    simp [List.append_assoc]
  · rintro ⟨a, t, hinf⟩
    refine ⟨a, lowerData q ++ t, ?_, ?_⟩
    · rw [← hinf]
      simp [List.append_assoc]
    · exact (likeMatch_lit_append (lowerData q) hq ['%'] (lowerData q ++ t)).mpr
        ⟨t, rfl, likeMatch_pct_all t⟩

theorem ilikeOpt_iff (q : String) (hq : plainText (lowerData q)) (o : Option String) :
    (ilikeOpt (likePat q) o = true) ↔ occursCIOpt q o := by
  cases o with
  | none => simp [ilikeOpt, occursCIOpt]
  | some s => simpa [ilikeOpt, occursCIOpt, occursCI] using sqlILike_infix_iff q s hq

theorem qMatch_iff (q : String) (hq : plainText (lowerData q)) (r : Study) :
    (qMatch q r = true) ↔
      (occursCIOpt q r.brief_title ∨ occursCIOpt q r.official_title ∨
       occursCIOpt q r.lead_sponsor ∨ occursCIOpt q (r.conditions.map jsonbText) ∨
       occursCI q r.nct_id) := by
  simp only [qMatch, Bool.or_eq_true, ilikeOpt_iff q hq, occursCI,
    sqlILike_infix_iff q r.nct_id hq]
  tauto

/-! ## Lemmas about the stats route -/

theorem statsPred_parts (f : StatsFilters) (r : Study) :
    statsPred f r = true ↔
      (phaseFilterB f.phase r = true ∧ statusFilterB f.status r = true ∧
       yearFilterB f.year r = true ∧ condFilterB f.condition r = true ∧
       sponsorFilterB f.sponsor r = true) := by
  simp only [statsPred, Bool.and_eq_true]
  tauto

theorem statsMatching_status (store : List Study) {f : StatsFilters} {s dbS : String}
    (hs : f.status = some s) (hm : statusMapUI s = some dbS) :
    ∀ r ∈ statsMatching store f, r.overall_status = some dbS := by
  intro r hr
  have hp := (List.mem_filter.mp hr).2
  have hst := ((statsPred_parts f r).mp hp).2.1
  rw [hs] at hst
  simp only [statusFilterB, hm] at hst
  exact beq_iff_eq.mp hst

theorem statsByStatus_collapse (store : List Study) {f : StatsFilters} {s dbS : String}
    (hs : f.status = some s) (hm : statusMapUI s = some dbS) :
    statsByStatus store f = [] ∨
      statsByStatus store f = [(statusDisplay dbS, (statsMatching store f).length)] := by
  have hall := statsMatching_status store hs hm
  have hrows : (statsMatching store f).filter (fun r => r.overall_status.isSome) =
      statsMatching store f := by
    rw [List.filter_eq_self]
    intro r hr
    rw [hall r hr]
    rfl
  unfold statsByStatus
  rw [hrows]
  cases hM : statsMatching store f with
  | nil =>
    left
    simp [groupCounts]
  | cons r0 t =>
    right
    have hconst : groupCounts (fun r => r.overall_status) (statsMatching store f) =
        [(some dbS, (statsMatching store f).length)] :=
      groupCounts_const (by rw [hM]; simp) (fun a ha => hall a ha)
    rw [hM] at hconst
    rw [hconst]
    simp [List.insertionSort, List.orderedInsert, statusDisplayOpt]

theorem statsByPhase_sum (store : List Study) (f : StatsFilters) :
    ((statsByPhase store f).map Prod.snd).sum = (statsMatching store f).length := by
  unfold statsByPhase
  have hperm := List.perm_insertionSort byPhaseRank
    (groupSums ((groupCounts (fun r => r.phase) (statsMatching store f)).map
      (fun p => (phaseBucket p.1, p.2))))
  rw [(hperm.map Prod.snd).sum_eq, groupSums_sum, List.map_map]
  have hc : (Prod.snd ∘ fun p : Option String × Nat => (phaseBucket p.1, p.2)) = Prod.snd := rfl
  rw [hc]
  exact groupCounts_sum _ _

theorem yearRows_range {store : List Study} {f : StatsFilters} {y : Int}
    (hy : y ∈ yearRows store f) : 2010 ≤ y ∧ y ≤ 2026 := by
  unfold yearRows at hy
  rcases List.mem_filterMap.mp hy with ⟨r, _, hr⟩
  cases hd : r.start_date with
  | none =>
    rw [hd] at hr
    cases hr
  | some d =>
    rw [hd] at hr
    dsimp only at hr
    split at hr
    · cases hr
      omega
    · cases hr

theorem yearRows_count (store : List Study) (f : StatsFilters) {y : Int}
    (h1 : 2010 ≤ y) (h2 : y ≤ 2026) :
    (yearRows store f).count y =
      ((statsMatching store f).filter (fun r => r.start_date == some y)).length := by
  unfold yearRows
  rw [count_filterMap_eq]
  congr 1
  apply List.filter_congr
  intro r _
  cases hd : r.start_date with
  | none => simp
  | some d =>
    by_cases hin : 2010 ≤ d ∧ d ≤ 2026
    · simp [hin]
    · have hdy : (d == y) = false := by
        rw [beq_eq_false_iff_ne]
        rintro rfl
        exact hin ⟨h1, h2⟩
      simp [hin, hdy]

theorem statsByYear_mem {store : List Study} {f : StatsFilters} {e : Int × Nat}
    (he : e ∈ statsByYear store f) :
    2010 ≤ e.1 ∧ e.1 ≤ 2026 ∧
      e.2 = ((statsMatching store f).filter (fun r => r.start_date == some e.1)).length := by
  obtain ⟨y, n⟩ := e
  unfold statsByYear at he
  have h3 : (y, n) ∈ groupCounts id (yearRows store f) :=
    (List.perm_insertionSort byYearAsc _).mem_iff.mp he
  obtain ⟨hmem, hcount⟩ := groupCounts_mem h3
  rw [List.map_id] at hmem
  obtain ⟨hlo, hhi⟩ := yearRows_range hmem
  refine ⟨hlo, hhi, ?_⟩
  rw [hcount, List.map_id, yearRows_count store f hlo hhi]

theorem statsTopConditions_mem {store : List Study} {f : StatsFilters} {e : String × Nat}
    (he : e ∈ statsTopConditions store f) :
    3 < e.1.length ∧ stopList.contains (lowerStr e.1) = false ∧
      ∃ r ∈ statsMatching store f, ∃ xs, r.conditions = some (.arr xs) ∧ e.1 ∈ xs := by
  obtain ⟨c, n⟩ := e
  unfold statsTopConditions at he
  have h2 := List.Sublist.mem he (List.take_sublist 10 _)
  have h3 : (c, n) ∈ groupCounts id (conditionRows store f) :=
    (List.perm_insertionSort byValueDesc _).mem_iff.mp h2
  obtain ⟨hmem, _⟩ := groupCounts_mem h3
  rw [List.map_id] at hmem
  unfold conditionRows at hmem
  rcases List.mem_flatMap.mp hmem with ⟨r, hr, hc⟩
  cases hcond : r.conditions with
  | none =>
    rw [hcond] at hc
    cases hc
  | some j =>
    cases j with
    | nonArray s =>
      rw [hcond] at hc
      cases hc
    | arr xs =>
      rw [hcond] at hc
      simp only [] at hc
      rcases List.mem_filter.mp hc with ⟨hcx, hcp⟩
      rw [Bool.and_eq_true] at hcp
      obtain ⟨hstop, hlen⟩ := hcp
      refine ⟨by simpa using hlen, by simpa using hstop, r, hr, xs, hcond, hcx⟩

/-! ## Lemmas about the search route -/

theorem searchItems_sorted (req : SearchReq) (store : List Study) :
    List.Sorted updAfter (searchItems req store) := by
  have hsorted : List.Sorted updAfter (searchSorted req store) :=
    List.sorted_insertionSort updAfter (searchCandidates req store)
  have hsub : List.Sublist (searchItems req store) (searchSorted req store) :=
    List.Sublist.trans (List.take_sublist _ _) (List.drop_sublist _ _)
  exact List.Pairwise.sublist hsub hsorted

theorem studiesGET_ok_inv {store : List Study} {req : SearchReq} {o : SearchOk}
    (h : studiesGET (.up store) req = .ok o) :
    o = ⟨searchItems req store, (searchCandidates req store).length, req.page, req.limit⟩ := by
  simp only [studiesGET] at h
  by_cases hc : limitEff req < 0 ∨ offsetOf req < 0
  · rw [if_pos hc] at h
    cases h
  · rw [if_neg hc] at h
    cases h
    rfl

theorem searchCandidates_congr (store : List Study) {req req2 : SearchReq}
    (h1 : req2.q = req.q) (h2 : req2.status = req.status) (h3 : req2.phase = req.phase)
    (h4 : req2.study_type = req.study_type) (h5 : req2.sponsor_class = req.sponsor_class) :
    searchCandidates req2 store = searchCandidates req store := by
  unfold searchCandidates
  rw [h1, h2, h3, h4, h5]

theorem studiesGET_limit_zero {store : List Study} {req : SearchReq} (h : req.limit = 0) :
    studiesGET (.up store) req =
      .ok ⟨[], (searchCandidates req store).length, req.page, req.limit⟩ := by
  have hle : limitEff req = 0 := by simp [limitEff, h]
  have hoff : offsetOf req = 0 := by simp [offsetOf, hle]
  have hitems : searchItems req store = [] := by
    unfold searchItems
    rw [hle]
    simp
  simp only [studiesGET]
  rw [if_neg (by rw [hle, hoff]; omega), hitems]

theorem studiesGET_nonpos_page {store : List Study} {req : SearchReq}
    (hp : req.page ≤ 0) (hl : 1 ≤ req.limit) :
    studiesGET (.up store) req = .err ⟨"Database error"⟩ := by
  have hle : 1 ≤ limitEff req := le_min hl (by norm_num)
  have hoff : offsetOf req < 0 := by
    rw [offsetOf]
    have h1 : req.page - 1 < 0 := by omega
    exact Int.mul_neg_of_neg_of_pos h1 (by omega)
  simp only [studiesGET]
  rw [if_pos (Or.inr hoff)]

/-! ## The claims -/

/-- C1 (code_bug): the repository's interpolating search route builds its
WHERE clause by splicing the raw parameter values into the SQL text, so a
free-text value containing a quote is not matched literally: for
`q = O'Brien's Syndrome` the first string literal a SQL lexer reads from
the produced clause is `%O` — the quote ends the literal early and the rest
of the value becomes query structure — while the pattern the route intended
is `%O'Brien's Syndrome%`. A quote-free value such as `cancer` produces the
intended literal `%cancer%`. This contradicts the claim that every filter
value is bound as a typed parameter and never interpolated. -/
theorem interpolation_alters_query_literal :
    firstLiteral (searchWhereClause "O'Brien's Syndrome" "" "" "" "") = some "%O" ∧
    some "%O" ≠ some (likePat "O'Brien's Syndrome") ∧
    firstLiteral (searchWhereClause "cancer" "" "" "" "") = some (likePat "cancer") := by
  decide

/-- C2 counterexample: with the status filter `Recruiting` active over a
store holding one `RECRUITING` and one `COMPLETED` study, the code's
`byStatus` facet has a single entry (the selected status only), while the
spec's self-exclusive facet (predicate with the status filter removed) has
two — so the code's facet counts are not the self-exclusive ones. -/
theorem facets_not_self_exclusive_cex :
    (statsOk facetCexStore recruitingFilter).byStatus.length = 1 ∧
    (specSelfExclusiveByStatus facetCexStore recruitingFilter).length = 2 := by
  decide

/-- C2 (amended): facet counts are self-inclusive — each dimension is
computed against the full predicate including that dimension's own filter.
In particular, when a status filter (mapping to database code `dbS`) is
active, the returned `byStatus` collapses to at most one entry: the
selected status, counting exactly the records matching all filters. -/
theorem facets_self_inclusive_status_collapse (store : List Study) (f : StatsFilters)
    (s dbS : String) (hs : f.status = some s) (hm : statusMapUI s = some dbS) :
    (statsOk store f).byStatus.length ≤ 1 ∧
    ∀ e ∈ (statsOk store f).byStatus,
      e.1 = statusDisplay dbS ∧ e.2 = (statsMatching store f).length := by
  have hcol := statsByStatus_collapse store hs hm
  have hbs : (statsOk store f).byStatus = statsByStatus store f := rfl
  rcases hcol with h | h <;> rw [hbs, h]
  · exact ⟨by simp, by simp⟩
  · refine ⟨by simp, ?_⟩
    intro e he
    rw [List.mem_singleton] at he
    subst he
    exact ⟨rfl, rfl⟩

theorem facets_self_inclusive_status_collapse_witness :
    (statsOk facetCexStore recruitingFilter).byStatus.length ≤ 1 ∧
    ∀ e ∈ (statsOk facetCexStore recruitingFilter).byStatus,
      e.1 = statusDisplay "RECRUITING" ∧
      e.2 = (statsMatching facetCexStore recruitingFilter).length :=
  facets_self_inclusive_status_collapse facetCexStore recruitingFilter
    "Recruiting" "RECRUITING" rfl rfl

/-- C3 counterexample: over a store holding a single study whose
`overall_status` is null and with no filters active, the total is 1 but the
status facet's counts sum to 0 (the status breakdown excludes null
statuses), so the sum of a dimension's facet counts does not always equal
the total satisfying that dimension's predicate. -/
theorem facet_sum_mismatch_cex :
    (statsOk [nullStatusStudy] noFilters).total = 1 ∧
    (((statsOk [nullStatusStudy] noFilters).byStatus).map Prod.snd).sum = 0 := by
  decide

/-- C3 (amended): the facet-consistency equation holds for the phase
dimension: for every store and filter set, the `byPhase` counts sum to the
total number of records satisfying the route's predicate (the phase `CASE`
is exhaustive, null included, and the query has no `LIMIT`). The status,
condition, sponsor and year dimensions may deviate (null exclusion, top-N
truncation, per-condition multiplicity, year range). -/
theorem phase_facet_sum_eq_total (store : List Study) (f : StatsFilters) :
    (((statsOk store f).byPhase).map Prod.snd).sum = (statsOk store f).total := by
  show ((statsByPhase store f).map Prod.snd).sum = (statsMatching store f).length
  exact statsByPhase_sum store f

/-- C4 counterexample: the only ordering the search route applies is
`last_update_date DESC NULLS LAST`; two distinct records with equal update
dates compare equal under it (there is no vector tier and no identity
tiebreak), and the route's output order between them is whatever order the
table returned them in: the same two rows stored in either order are
returned in that order. -/
theorem search_order_ties_cex :
    updAfter tieStudyA tieStudyB ∧ updAfter tieStudyB tieStudyA ∧ tieStudyA ≠ tieStudyB ∧
    studiesGET (.up [tieStudyA, tieStudyB]) defaultReq =
      .ok ⟨[tieStudyA, tieStudyB], 2, 1, 20⟩ ∧
    studiesGET (.up [tieStudyB, tieStudyA]) defaultReq =
      .ok ⟨[tieStudyB, tieStudyA], 2, 1, 20⟩ := by
  decide

/-- C4 (amended): the returned page of every successful search is sorted by
the one ordering the code applies, most-recent-update descending with nulls
last (`updAfter`); identical calls of the embedded route are identical by
functionality, but the ordering has no vector tier and no identity
tiebreak, so it does not distinguish distinct records with equal update
dates. -/
theorem search_results_sorted_by_update (db : DbState) (req : SearchReq) (o : SearchOk)
    (h : studiesGET db req = .ok o) : List.Sorted updAfter o.studies := by
  cases db with
  | down =>
    simp only [studiesGET] at h
    exact SearchResult.noConfusion h
  | up store =>
    rw [studiesGET_ok_inv h]
    exact searchItems_sorted req store

theorem search_results_sorted_by_update_witness :
    List.Sorted updAfter ((⟨[cancerStudy], 1, 1, 20⟩ : SearchOk).studies) :=
  search_results_sorted_by_update (.up [cancerStudy]) cancerReq
    ⟨[cancerStudy], 1, 1, 20⟩ (by decide)

/-- C5 counterexample: a search request with `pageSize = 0` is not rejected
with a validation error — the route executes the query as-is and returns a
200 success carrying the true total and an empty page. -/
theorem pagesize_zero_not_rejected_cex :
    studiesGET (.up [recruitingStudy]) zeroLimitReq = .ok ⟨[], 1, 1, 0⟩ ∧
    SearchResult.status (studiesGET (.up [recruitingStudy]) zeroLimitReq) = 200 := by
  decide

/-- C5 (amended): the route performs no pagination validation. A request
with `pageSize = 0` succeeds with an empty item list and the full
pre-pagination total (no validation error, no clamping to a default); a
request with `page ≤ 0` and a positive `pageSize` produces a negative
`OFFSET`, whose database error surfaces as the generic 500 `Database error`
payload, not a validation error. -/
theorem pagination_invalid_not_validation_error (store : List Study) (req : SearchReq) :
    (req.limit = 0 →
      studiesGET (.up store) req =
        .ok ⟨[], (searchCandidates req store).length, req.page, req.limit⟩) ∧
    (req.page ≤ 0 → 1 ≤ req.limit →
      studiesGET (.up store) req = .err ⟨"Database error"⟩) := by
  constructor
  · intro h
    exact studiesGET_limit_zero h
  · intro hp hl
    exact studiesGET_nonpos_page hp hl

theorem pagination_invalid_not_validation_error_witness :
    studiesGET (.up [recruitingStudy]) zeroLimitReq =
      .ok ⟨[], (searchCandidates zeroLimitReq [recruitingStudy]).length,
           zeroLimitReq.page, zeroLimitReq.limit⟩ ∧
    studiesGET (.up [recruitingStudy]) zeroPageReq = .err ⟨"Database error"⟩ :=
  ⟨(pagination_invalid_not_validation_error [recruitingStudy] zeroLimitReq).1 rfl,
   (pagination_invalid_not_validation_error [recruitingStudy] zeroPageReq).2
     (by decide) (by decide)⟩

/-- C6 (confirmed): the effective page size is `min(limit, 100) ≤ 100`; a
successful response's items are exactly the `OFFSET`/`LIMIT` window of the
ordered candidate sequence and its total is the number of candidates
satisfying the predicate before pagination; and two successful requests
differing only in `page` and `limit` report the same total. -/
theorem search_pagination_bounded (store : List Study) (req : SearchReq) :
    limitEff req ≤ 100 ∧
    (∀ o : SearchOk, studiesGET (.up store) req = .ok o →
      o.total = (searchCandidates req store).length ∧
      o.studies =
        ((List.insertionSort updAfter (searchCandidates req store)).drop
          (offsetOf req).toNat).take (limitEff req).toNat) ∧
    (∀ (req2 : SearchReq) (o o2 : SearchOk),
      req2.q = req.q → req2.status = req.status → req2.phase = req.phase →
      req2.study_type = req.study_type → req2.sponsor_class = req.sponsor_class →
      studiesGET (.up store) req = .ok o → studiesGET (.up store) req2 = .ok o2 →
      o.total = o2.total) := by
  refine ⟨min_le_right _ _, ?_, ?_⟩
  · intro o h
    rw [studiesGET_ok_inv h]
    exact ⟨rfl, rfl⟩
  · intro req2 o o2 h1 h2 h3 h4 h5 ho ho2
    rw [studiesGET_ok_inv ho, studiesGET_ok_inv ho2]
    show (searchCandidates req store).length = (searchCandidates req2 store).length
    rw [searchCandidates_congr store h1 h2 h3 h4 h5]

theorem search_pagination_bounded_witness :
    limitEff cancerReq ≤ 100 ∧
    ((⟨[cancerStudy], 1, 1, 20⟩ : SearchOk).total =
        (searchCandidates cancerReq [cancerStudy]).length ∧
      (⟨[cancerStudy], 1, 1, 20⟩ : SearchOk).studies =
        ((List.insertionSort updAfter (searchCandidates cancerReq [cancerStudy])).drop
          (offsetOf cancerReq).toNat).take (limitEff cancerReq).toNat) ∧
    ((⟨[cancerStudy], 1, 1, 20⟩ : SearchOk).total =
      (⟨[], 1, 2, 7⟩ : SearchOk).total) :=
  ⟨(search_pagination_bounded [cancerStudy] cancerReq).1,
   (search_pagination_bounded [cancerStudy] cancerReq).2.1 ⟨[cancerStudy], 1, 1, 20⟩
     (by decide),
   (search_pagination_bounded [cancerStudy] cancerReq).2.2 { cancerReq with page := 2, limit := 7 }
     ⟨[cancerStudy], 1, 1, 20⟩ ⟨[], 1, 2, 7⟩ rfl rfl rfl rfl rfl
     (by decide) (by decide)⟩

/-- C7 counterexample: the free text is matched as the SQL pattern `%q%`,
in which `_` is a single-character wildcard: the request `q = a_c` matches
the study titled `abc` (it is returned as the sole candidate), yet `a_c`
does not occur as a case-insensitive substring of any of the five searched
fields of that study — so the keyword match set is not exactly the
substring-occurrence set. -/
theorem keyword_wildcard_match_cex :
    searchCandidates wildcardReq [wildcardStudy] = [wildcardStudy] ∧
    ¬(occursCIOpt "a_c" wildcardStudy.brief_title ∨
      occursCIOpt "a_c" wildcardStudy.official_title ∨
      occursCIOpt "a_c" wildcardStudy.lead_sponsor ∨
      occursCIOpt "a_c" (wildcardStudy.conditions.map jsonbText) ∨
      occursCI "a_c" wildcardStudy.nct_id) := by
  decide

/-- C7 (amended): for non-empty free text free of SQL pattern
metacharacters (`%`, `_`, backslash, checked on its lowercased form), the
candidate set is exactly the stored records that satisfy the structured
filters and in which `q` occurs as a case-insensitive substring of the
brief title, official title, lead sponsor, `conditions::text`, or
`nct_id`; for text containing metacharacters the match is the SQL
pattern-match semantics instead. -/
theorem keyword_match_ilike_substring (req : SearchReq) (store : List Study) (r : Study)
    (hq : req.q ≠ "") (hplain : plainText (lowerData req.q)) :
    r ∈ searchCandidates req store ↔
      r ∈ store ∧
        structMatch req.status req.phase req.study_type req.sponsor_class r = true ∧
        (occursCIOpt req.q r.brief_title ∨ occursCIOpt req.q r.official_title ∨
         occursCIOpt req.q r.lead_sponsor ∨ occursCIOpt req.q (r.conditions.map jsonbText) ∨
         occursCI req.q r.nct_id) := by
  unfold searchCandidates
  rw [List.mem_filter]
  have hqb : (req.q == "") = false := by
    rw [beq_eq_false_iff_ne]
    exact hq
  constructor
  · rintro ⟨hr, hp⟩
    unfold searchPred at hp
    rw [Bool.and_eq_true] at hp
    obtain ⟨hql, hstruct⟩ := hp
    rw [hqb, Bool.false_or] at hql
    exact ⟨hr, hstruct, (qMatch_iff req.q hplain r).mp hql⟩
  · rintro ⟨hr, hstruct, hocc⟩
    refine ⟨hr, ?_⟩
    unfold searchPred
    rw [Bool.and_eq_true, hqb, Bool.false_or]
    exact ⟨(qMatch_iff req.q hplain r).mpr hocc, hstruct⟩

theorem keyword_match_ilike_substring_witness :
    cancerStudy ∈ searchCandidates cancerReq [cancerStudy] ↔
      cancerStudy ∈ [cancerStudy] ∧
        structMatch cancerReq.status cancerReq.phase cancerReq.study_type
          cancerReq.sponsor_class cancerStudy = true ∧
        (occursCIOpt cancerReq.q cancerStudy.brief_title ∨
         occursCIOpt cancerReq.q cancerStudy.official_title ∨
         occursCIOpt cancerReq.q cancerStudy.lead_sponsor ∨
         occursCIOpt cancerReq.q (cancerStudy.conditions.map jsonbText) ∨
         occursCI cancerReq.q cancerStudy.nct_id) :=
  keyword_match_ilike_substring cancerReq [cancerStudy] cancerStudy
    (by decide) (by decide)

/-- C8 (confirmed): a failing query-path request returns the error payload
(an `error` field and HTTP status 500), a successful one returns status 200
with no error field, and a zero-total success carries an empty item list;
an error response is never equal to any success response, so an error is
always distinguishable from a zero-result success. -/
theorem query_error_distinguishable :
    (∀ (db : DbState) (req : SearchReq) (e : ApiError),
        studiesGET db req = .err e →
          (studiesGET db req).status = 500 ∧ e.error = "Database error") ∧
    (∀ (db : DbState) (req : SearchReq) (o : SearchOk),
        studiesGET db req = .ok o →
          (studiesGET db req).status = 200 ∧ (o.total = 0 → o.studies = [])) ∧
    (∀ (db : DbState) (f : StatsFilters) (e : ApiError),
        statsGET db f = .err e →
          (statsGET db f).status = 500 ∧ e.error = "Failed to fetch stats") ∧
    (∀ (db : DbState) (f : StatsFilters) (o : StatsOk),
        statsGET db f = .ok o → (statsGET db f).status = 200) ∧
    (∀ (e : ApiError) (o : SearchOk), SearchResult.err e ≠ SearchResult.ok o) ∧
    (∀ (e : ApiError) (o : StatsOk), StatsResult.err e ≠ StatsResult.ok o) := by
  refine ⟨?_, ?_, ?_, ?_, ?_, ?_⟩
  · intro db req e h
    rw [h]
    refine ⟨rfl, ?_⟩
    cases db with
    | down =>
      simp only [studiesGET] at h
      cases h
      rfl
    | up store =>
      simp only [studiesGET] at h
      by_cases hc : limitEff req < 0 ∨ offsetOf req < 0
      · rw [if_pos hc] at h
        cases h
        rfl
      · rw [if_neg hc] at h
        cases h
  · intro db req o h
    rw [h]
    refine ⟨rfl, ?_⟩
    intro htot
    cases db with
    | down =>
      simp only [studiesGET] at h
      exact SearchResult.noConfusion h
    | up store =>
      have ho := studiesGET_ok_inv h
      subst ho
      have hc : searchCandidates req store = [] := List.length_eq_zero.mp htot
      show searchItems req store = []
      unfold searchItems searchSorted
      rw [hc]
      simp
  · intro db f e h
    rw [h]
    refine ⟨rfl, ?_⟩
    cases db with
    | down =>
      simp only [statsGET] at h
      cases h
      rfl
    | up store =>
      simp only [statsGET] at h
      exact StatsResult.noConfusion h
  · intro db f o h
    rw [h]
    rfl
  · intro e o h
    exact SearchResult.noConfusion h
  · intro e o h
    exact StatsResult.noConfusion h

theorem query_error_distinguishable_witness :
    (studiesGET .down defaultReq).status = 500 ∧
    (⟨"Database error"⟩ : ApiError).error = "Database error" :=
  query_error_distinguishable.1 .down defaultReq ⟨"Database error"⟩ rfl

/-- C9 (confirmed): for every store and filter set the facet lists are
size-bounded — `byStatus` has at most 8 entries, `topConditions` at most
10, `bySponsor` at most 5 — and every `byYear` entry's year lies in
`[2010, 2026]` with a count that counts exactly the matching records
whose (non-null) start date has that year, so null start dates are
excluded. -/
theorem facet_lists_bounded (store : List Study) (f : StatsFilters) :
    (statsOk store f).byStatus.length ≤ 8 ∧
    (statsOk store f).topConditions.length ≤ 10 ∧
    (statsOk store f).bySponsor.length ≤ 5 ∧
    (∀ e ∈ (statsOk store f).byYear,
      2010 ≤ e.1 ∧ e.1 ≤ 2026 ∧
      e.2 = ((statsMatching store f).filter (fun r => r.start_date == some e.1)).length) := by
  refine ⟨?_, ?_, ?_, ?_⟩
  · show (statsByStatus store f).length ≤ 8
    unfold statsByStatus
    rw [List.length_take]
    exact min_le_left _ _
  · show (statsTopConditions store f).length ≤ 10
    unfold statsTopConditions
    rw [List.length_take]
    exact min_le_left _ _
  · show (statsBySponsor store f).length ≤ 5
    unfold statsBySponsor
    rw [List.length_take]
    exact min_le_left _ _
  · intro e he
    exact statsByYear_mem he

theorem facet_lists_bounded_witness :
    (statsOk [datedStudy] noFilters).byStatus.length ≤ 8 ∧
    (statsOk [datedStudy] noFilters).topConditions.length ≤ 10 ∧
    (statsOk [datedStudy] noFilters).bySponsor.length ≤ 5 ∧
    (∀ e ∈ (statsOk [datedStudy] noFilters).byYear,
      2010 ≤ e.1 ∧ e.1 ≤ 2026 ∧
      e.2 = ((statsMatching [datedStudy] noFilters).filter
        (fun r => r.start_date == some e.1)).length) :=
  facet_lists_bounded [datedStudy] noFilters

/-- C10 (confirmed): every entry of the condition facet comes from a
matching record whose `conditions` value is a JSON array, has a label
longer than 3 characters whose lowercase form is not in the stop list; and
the reported `topCondition` is the first entry of the count-descending
list, or `N/A` when the list is empty. -/
theorem condition_facet_filters (store : List Study) (f : StatsFilters) :
    (∀ e ∈ (statsOk store f).topConditions,
       3 < e.1.length ∧ stopList.contains (lowerStr e.1) = false ∧
       ∃ r ∈ statsMatching store f, ∃ xs, r.conditions = some (.arr xs) ∧ e.1 ∈ xs) ∧
    ((statsOk store f).topConditions = [] → (statsOk store f).topCondition = "N/A") ∧
    (∀ (e : String × Nat) (rest : List (String × Nat)),
      (statsOk store f).topConditions = e :: rest → (statsOk store f).topCondition = e.1) := by
  refine ⟨fun e he => statsTopConditions_mem he, ?_, ?_⟩
  · intro h
    have h2 : statsTopConditions store f = [] := h
    show statsTopCondition store f = "N/A"
    unfold statsTopCondition
    rw [h2]
    rfl
  · intro e rest h
    have h2 : statsTopConditions store f = e :: rest := h
    have hmem : e ∈ statsTopConditions store f := by
      rw [h2]
      simp
    have hlen := (statsTopConditions_mem hmem).1
    have hne : e.1 ≠ "" := by
      intro h0
      rw [h0] at hlen
      simp at hlen
    show statsTopCondition store f = e.1
    unfold statsTopCondition
    rw [h2]
    simp [hne]

theorem condition_facet_filters_witness :
    (∀ e ∈ (statsOk [datedStudy] noFilters).topConditions,
       3 < e.1.length ∧ stopList.contains (lowerStr e.1) = false ∧
       ∃ r ∈ statsMatching [datedStudy] noFilters,
         ∃ xs, r.conditions = some (.arr xs) ∧ e.1 ∈ xs) ∧
    ((statsOk [datedStudy] noFilters).topConditions = [] →
      (statsOk [datedStudy] noFilters).topCondition = "N/A") ∧
    (∀ (e : String × Nat) (rest : List (String × Nat)),
      (statsOk [datedStudy] noFilters).topConditions = e :: rest →
      (statsOk [datedStudy] noFilters).topCondition = e.1) :=
  condition_facet_filters [datedStudy] noFilters
